import Mathlib

/-!
# Verification of the slot availability and booking subsystem

Shallow embedding of the booking core of `src/src/App.jsx` (a React +
Firestore barbershop scheduling app) and proofs about it.

## Time model

JavaScript `Date` values are instants: milliseconds since the Unix epoch.
All `Date` values in one runtime share a single fixed timezone offset.  We
model an instant as an `Int` (epoch milliseconds) and pass the runtime's
timezone offset `tz` (milliseconds to ADD to UTC time to obtain local
wall-clock time; e.g. UTC-3 is `tz = -3 * msPerHour`) as an explicit
parameter to every function whose JS original consults local time.

Calendar days are modelled as day indices (instants divided by the length
of a day, rounding towards negative infinity), which faithfully captures
day-string equality comparisons in the source:
* the day part of `date.toISOString()` identifies the UTC calendar day of
  an instant: two instants produce the same ISO day string iff they lie in
  the same UTC day, so we model the string by the UTC day index `utcDay`.
* `date.toDateString()` renders the LOCAL calendar day: two instants
  compare equal iff they lie in the same local day, modelled by `localDay`.

Slot times are the strings "09:00" … "17:00".  The source formats a slot
as the zero-padded hour followed by ":00", which is injective on hours
9–17, and parses it back by splitting at the colon and reading the
numbers, recovering the pair (hour, 0); so we model a slot time by its
hour (a `Nat`), and slot-string equality is hour equality.
-/

def msPerHour : Int := 60 * 60 * 1000

def msPerDay : Int := 24 * msPerHour

/-- UTC calendar day index of an instant: models the day part of
`date.toISOString()` (two instants get the same ISO day string iff they
have the same `utcDay`). -/
def utcDay (t : Int) : Int := t.fdiv msPerDay

/-- Local calendar day index of an instant under timezone offset `tz`:
models the day rendered by `date.toDateString()`. -/
def localDay (tz t : Int) : Int := (t + tz).fdiv msPerDay

/-- One appointment record as written by `handlePaymentAndBooking`
(App.jsx 295–305) and read back from the Firestore snapshot.  `date` is a
UTC day index (the source stores the day part of `toISOString()`), `time`
is the slot hour (the source stores "HH:00"), `price` is in centavos (the
source stores the float `10.00`), `createdAt` is the store-assigned
`serverTimestamp()`.  The store-assigned document id is not part of the
written record and none of the verified properties depend on it. -/
structure Appointment where
  userId : String
  userName : String
  whatsapp : String
  date : Int
  time : Nat
  service : String
  price : Nat
  paid : Bool
  createdAt : Int
  deriving DecidableEq, Repr

/-- `isToday` (App.jsx 226–229): compares `date.toDateString()` with
`today.toDateString()`, i.e. LOCAL calendar day equality between the
queried date and the current instant `now`. -/
def isToday (tz now date : Int) : Bool :=
  localDay tz date == localDay tz now

/-- Start instant of the slot at hour `h` on the local calendar day of
`date`: models `new Date(date.getFullYear(), date.getMonth(),
date.getDate(), h, m)` (App.jsx 251) with `m = 0` — the local components
of `date` with the wall-clock time replaced by `h:00`. -/
def slotInstant (tz date : Int) (h : Nat) : Int :=
  localDay tz date * msPerDay + h * msPerHour - tz

/-- `getAvailableSlots` (App.jsx 231–258).  Builds the hourly slots 9–17
(the loop runs `hour = 9..17` and pushes when `hour < 18`, which always
holds), then filters out slots booked at the queried UTC day string and,
when the queried date is today (local calendar day of `now`), slots not
strictly more than one hour in the future.  `appointments` is the realtime
snapshot cache; `now` is the instant `new Date()` taken inside the
function. -/
def getAvailableSlots (tz : Int) (appointments : List Appointment)
    (date now : Int) : List Nat :=
  let timeSlots := (List.range' 9 9).filter (fun hour => decide (hour < 18))
  let dateString := utcDay date
  timeSlots.filter (fun time =>
    let isBooked := appointments.any
      (fun app => app.date == dateString && app.time == time)
    if isBooked then false
    else if isToday tz now date then
      decide (slotInstant tz date time > now + 60 * 60 * 1000)
    else true)

/-- Outcome of one `handlePaymentAndBooking` run: the `setError` message
(empty when no error was set), the record handed to `onBookingConfirmed`
(none when the attempt did not commit), and the appointment store after
the attempt. -/
structure BookingResult where
  errorMsg : String
  committed : Option Appointment
  store : List Appointment
  deriving DecidableEq, Repr

/-- `handlePaymentAndBooking` (App.jsx 277–320) as a function of its
environment: the profile fields, the selected date and slot, the outcome
`paymentOk` of the `window.confirm` payment gate, the outcome `storeOk` of
the `addDoc` write, the store-assigned `createdAt`, and the current store
contents.  A `null` selected time reports a validation error; a declined
payment gate reports a payment error; otherwise the fully populated record
is UNCONDITIONALLY appended by `addDoc` — the source performs no
availability re-check and Firestore `addDoc` has no uniqueness constraint
on `(date, time)`. -/
def handlePaymentAndBooking (uid un wa : String) (selectedDate : Int)
    (selectedTime : Option Nat) (paymentOk storeOk : Bool)
    (createdAt : Int) (store : List Appointment) : BookingResult :=
  match selectedTime with
  | none => ⟨"Por favor, selecione um horário.", none, store⟩
  | some time =>
    if !paymentOk then
      ⟨"Pagamento cancelado ou falhou. O agendamento não foi concluído.",
        none, store⟩
    else
      let newAppointment : Appointment :=
        { userId := uid, userName := un, whatsapp := wa,
          date := utcDay selectedDate, time := time,
          service := "Corte Clássico", price := 1000, paid := true,
          createdAt := createdAt }
      if storeOk then ⟨"", some newAppointment, store ++ [newAppointment]⟩
      else
        ⟨"Falha ao registrar o agendamento no sistema. Tente novamente.",
          none, store⟩

/-- Start instant of an appointment slot: models the `new Date(...)` call
at App.jsx 416, which concatenates `app.date`, "T", `app.time` and ":00"
and parses the result.  A date-time string without a zone designator is
parsed as LOCAL time, so the instant is wall-clock `app.time` on local
day `app.date`. -/
def dateTimeOf (tz : Int) (app : Appointment) : Int :=
  app.date * msPerDay + app.time * msPerHour - tz

/-- `upcomingAppointments` (App.jsx 411–424): filter the cache to the
logged-in user's records, keep those whose slot start instant is `≥ now`,
and sort ascending by start instant.  JS `Array.prototype.sort` is stable
and the comparator `a.dateTime - b.dateTime` orders by the key alone, so
the sort is modelled by the stable `List.insertionSort` on the key order
(a stable sort by a total preorder is unique as a function, so any stable
implementation denotes the same list). -/
def upcomingAppointments (tz : Int) (userId : String)
    (appointments : List Appointment) (now : Int) : List Appointment :=
  ((appointments.filter (fun app => app.userId == userId)).filter
      (fun app => decide (dateTimeOf tz app ≥ now))).insertionSort
    (fun a b => dateTimeOf tz a ≤ dateTimeOf tz b)

/-- The `ScheduleGrid` component state relevant to a booking attempt
(App.jsx 199–205): the selected date and slot, the `isBooking` flag, the
`error` message, the pending `addDoc` write (if one is in flight), and the
shared appointment collection. -/
structure GridState where
  selectedDate : Int
  selectedTime : Option Nat
  isBooking : Bool
  errorMsg : String
  inFlight : Option Appointment
  store : List Appointment
  deriving DecidableEq, Repr

/-- Events the booking part of `ScheduleGrid` reacts to: a click on a slot
button (`handleSelectTime`), a click on the confirm button (which runs
`handlePaymentAndBooking` up to the `await addDoc`), and the resolution of
the in-flight `addDoc` promise (success or rejection). -/
inductive GridEvent where
  | selectTime (t : Nat)
  | confirmClick (paymentOk : Bool) (createdAt : Int)
  | storeAck (ok : Bool)
  deriving DecidableEq, Repr

/-- Single-threaded event step of `ScheduleGrid` (App.jsx 272–320 and the
confirm button at 379–393).  The confirm button is rendered with
`disabled={isBooking}`, so a confirm click delivered while a commit is in
flight is ignored by the DOM; otherwise the handler validates the slot,
runs the modal payment gate synchronously, and — only on success — sets
`isBooking` and issues the `addDoc` write, which resolves in a later
`storeAck` event (the `finally` block clears `isBooking`). -/
def gridStep (uid un wa : String) (s : GridState) (e : GridEvent) :
    GridState :=
  match e with
  | .selectTime t => { s with selectedTime := some t, errorMsg := "" }
  | .confirmClick paymentOk createdAt =>
    if s.isBooking then s
    else
      match s.selectedTime with
      | none => { s with errorMsg := "Por favor, selecione um horário." }
      | some time =>
        if !paymentOk then
          { s with
            errorMsg := "Pagamento cancelado ou falhou. O agendamento não foi concluído." }
        else
          { s with
            isBooking := true
            errorMsg := ""
            inFlight := some
              { userId := uid, userName := un, whatsapp := wa,
                date := utcDay s.selectedDate, time := time,
                service := "Corte Clássico", price := 1000,
                paid := true, createdAt := createdAt } }
  | .storeAck ok =>
    match s.inFlight with
    | none => s
    | some r =>
      if ok then
        { s with store := s.store ++ [r], inFlight := none,
                 isBooking := false }
      else
        { s with
          errorMsg := "Falha ao registrar o agendamento no sistema. Tente novamente."
          inFlight := none
          isBooking := false }

/-- Sample committed record used as concrete input in witnesses and
counterexamples: user "u" booked UTC day 100, slot 14:00. -/
def appA : Appointment :=
  { userId := "u", userName := "Ana Silva", whatsapp := "11911111111",
    date := 100, time := 14, service := "Corte Clássico", price := 1000,
    paid := true, createdAt := 10 }

/-- Second sample record at the same `(date, time)` slot as `appA` but
with an earlier `createdAt` and a different profile snapshot. -/
def appB : Appointment :=
  { appA with
    userName := "Bia Souza"
    whatsapp := "11922222222"
    createdAt := 5 }

/-! ## Helper lemmas about the availability calculator -/

/-- The availability output is a subsequence of the business-hour list. -/
theorem getAvailableSlots_sublist (tz : Int) (appointments : List Appointment)
    (date now : Int) :
    (getAvailableSlots tz appointments date now).Sublist (List.range' 9 9) := by
  unfold getAvailableSlots
  exact (List.filter_sublist _).trans (List.filter_sublist _)

/-- Membership characterisation of `getAvailableSlots`: a slot hour is
returned iff it is a business-hour slot, it is not booked at the queried
UTC day, and — when the queried date is on the local calendar day of
`now` — it starts strictly more than one hour after `now`. -/
theorem mem_getAvailableSlots (tz : Int) (appointments : List Appointment)
    (date now : Int) (t : Nat) :
    t ∈ getAvailableSlots tz appointments date now ↔
      (9 ≤ t ∧ t ≤ 17) ∧
      (¬ ∃ app ∈ appointments, app.date = utcDay date ∧ app.time = t) ∧
      (isToday tz now date = true →
        slotInstant tz date t > now + msPerHour) := by
  unfold getAvailableSlots
  simp only [List.mem_filter, List.mem_range'_1, decide_eq_true_eq]
  constructor
  · rintro ⟨⟨⟨h9, h18⟩, -⟩, hp⟩
    split at hp
    · exact absurd hp (by simp)
    · rename_i hnb
      refine ⟨⟨h9, by omega⟩, ?_, ?_⟩
      · rintro ⟨app, hmem, hd, ht⟩
        apply hnb
        rw [List.any_eq_true]
        exact ⟨app, hmem, by simp [hd, ht]⟩
      · intro hT
        rw [if_pos hT] at hp
        simpa [msPerHour] using hp
  · rintro ⟨⟨h9, h17⟩, hnb, hlead⟩
    refine ⟨⟨⟨h9, by omega⟩, by omega⟩, ?_⟩
    rw [if_neg ?_]
    · split
      · rename_i hT
        simpa [msPerHour] using hlead hT
      · rfl
    · intro hany
      rw [List.any_eq_true] at hany
      obtain ⟨app, hmem, happ⟩ := hany
      simp only [Bool.and_eq_true, beq_iff_eq] at happ
      exact hnb ⟨app, hmem, happ.1, happ.2⟩

/-- When the queried date is not on the local calendar day of `now` — in
particular for every PAST date — `getAvailableSlots` applies only the
booked-slot filter: there is no past-date guard in the calculator. -/
theorem getAvailableSlots_not_today (tz : Int) (appointments : List Appointment)
    (date now : Int) (h : isToday tz now date = false) :
    getAvailableSlots tz appointments date now =
      (List.range' 9 9).filter (fun t =>
        !(appointments.any
          (fun app => app.date == utcDay date && app.time == t))) := by
  unfold getAvailableSlots
  rw [show (List.range' 9 9).filter (fun hour => decide (hour < 18)) =
      List.range' 9 9 from by decide]
  apply List.filter_congr
  intro t ht
  cases hb : appointments.any
      (fun app => app.date == utcDay date && app.time == t)
  · simp [hb, h]
  · simp [hb]

/-! ## Claim theorems -/

/-- Claim C3 (counterexample): for a date strictly before today under BOTH
calendar-day notions (local and UTC) and an empty appointment set, the
calculator returns all nine business-hour slots, not the empty sequence
the claim requires. -/
theorem c3_counterexample :
    localDay 0 (99 * msPerDay + 12 * msPerHour)
      < localDay 0 (100 * msPerDay + 12 * msPerHour) ∧
    utcDay (99 * msPerDay + 12 * msPerHour)
      < utcDay (100 * msPerDay + 12 * msPerHour) ∧
    getAvailableSlots 0 [] (99 * msPerDay + 12 * msPerHour)
        (100 * msPerDay + 12 * msPerHour)
      = [9, 10, 11, 12, 13, 14, 15, 16, 17] := by
  decide

/-- Claim C3 (amended): the calculator has no past-date guard.  For every
date not on the local calendar day of `now` — which includes every date
strictly before today — it returns every business-hour slot that is not
booked at the queried UTC day, rather than an empty sequence; past dates
are kept unreachable only by the navigation control. -/
theorem c3_amended_no_past_guard (tz : Int) (appointments : List Appointment)
    (date now : Int) (h : isToday tz now date = false) :
    getAvailableSlots tz appointments date now =
      (List.range' 9 9).filter (fun t =>
        !(appointments.any
          (fun app => app.date == utcDay date && app.time == t))) :=
  getAvailableSlots_not_today tz appointments date now h

/-- Witness for the amended C3 theorem at a concrete past date with one
(non-matching) booking on the store. -/
theorem c3_amended_no_past_guard_witness :
    isToday 0 (100 * msPerDay) (99 * msPerDay) = false ∧
    getAvailableSlots 0 [appA] (99 * msPerDay) (100 * msPerDay) =
      (List.range' 9 9).filter (fun t =>
        !([appA].any
          (fun app => app.date == utcDay (99 * msPerDay) && app.time == t))) :=
  ⟨by decide,
    c3_amended_no_past_guard 0 [appA] (99 * msPerDay) (100 * msPerDay)
      (by decide)⟩

/-- Claim C4: when the queried date is the current local calendar day,
every slot returned by the availability computation starts strictly more
than 60 minutes after `now`. -/
theorem c4_same_day_lead_time (tz : Int) (appointments : List Appointment)
    (date now : Int) (t : Nat)
    (hToday : isToday tz now date = true)
    (hMem : t ∈ getAvailableSlots tz appointments date now) :
    slotInstant tz date t > now + msPerHour :=
  ((mem_getAvailableSlots tz appointments date now t).mp hMem).2.2 hToday

/-- Witness for C4: querying today at 07:00 returns the 09:00 slot, whose
start lies strictly more than one hour ahead. -/
theorem c4_same_day_lead_time_witness :
    isToday 0 (100 * msPerDay + 7 * msPerHour)
      (100 * msPerDay + 7 * msPerHour) = true ∧
    9 ∈ getAvailableSlots 0 [] (100 * msPerDay + 7 * msPerHour)
      (100 * msPerDay + 7 * msPerHour) ∧
    slotInstant 0 (100 * msPerDay + 7 * msPerHour) 9
      > (100 * msPerDay + 7 * msPerHour) + msPerHour :=
  ⟨by decide, by decide,
    c4_same_day_lead_time 0 [] (100 * msPerDay + 7 * msPerHour)
      (100 * msPerDay + 7 * msPerHour) 9 (by decide) (by decide)⟩

/-- Claim C5: a slot occupied by any record of the appointment set dated
at the queried day is never returned by the availability computation. -/
theorem c5_booked_slot_excluded (tz : Int) (appointments : List Appointment)
    (date now : Int) (app : Appointment)
    (hmem : app ∈ appointments) (hdate : app.date = utcDay date) :
    app.time ∉ getAvailableSlots tz appointments date now := fun hin =>
  ((mem_getAvailableSlots tz appointments date now app.time).mp hin).2.1
    ⟨app, hmem, hdate, rfl⟩

/-- Witness for C5: the sample record at (day 100, 14:00) removes 14:00
from the availability of day 100. -/
theorem c5_booked_slot_excluded_witness :
    appA ∈ [appA] ∧ appA.date = utcDay (100 * msPerDay + 5 * msPerHour) ∧
    appA.time ∉ getAvailableSlots 0 [appA]
      (100 * msPerDay + 5 * msPerHour) (50 * msPerDay) :=
  ⟨by simp, by decide,
    c5_booked_slot_excluded 0 [appA] (100 * msPerDay + 5 * msPerHour)
      (50 * msPerDay) appA (by simp) (by decide)⟩

/-- Claim C6: the availability computation returns only hours of the
fixed business set 9–17, in strictly ascending order, without duplicates,
hence at most nine slots and none at or after 18:00. -/
theorem c6_output_fixed_set_ascending (tz : Int)
    (appointments : List Appointment) (date now : Int) :
    (∀ t ∈ getAvailableSlots tz appointments date now, 9 ≤ t ∧ t ≤ 17) ∧
    (getAvailableSlots tz appointments date now).Pairwise (· < ·) ∧
    (getAvailableSlots tz appointments date now).Nodup ∧
    (getAvailableSlots tz appointments date now).length ≤ 9 := by
  have hsub := getAvailableSlots_sublist tz appointments date now
  have hpair : (getAvailableSlots tz appointments date now).Pairwise (· < ·) :=
    List.Pairwise.sublist hsub (by decide)
  refine ⟨?_, hpair, hpair.imp Nat.ne_of_lt, ?_⟩
  · intro t ht
    exact ((mem_getAvailableSlots tz appointments date now t).mp ht).1
  · simpa using hsub.length_le

/-- Witness for C6 at a concrete query, extracting the ordering facts and
the bounds of the returned slot 9. -/
theorem c6_output_fixed_set_ascending_witness :
    (getAvailableSlots 0 [] (100 * msPerDay) (50 * msPerDay)).Pairwise (· < ·) ∧
    (getAvailableSlots 0 [] (100 * msPerDay) (50 * msPerDay)).Nodup ∧
    (getAvailableSlots 0 [] (100 * msPerDay) (50 * msPerDay)).length ≤ 9 ∧
    (9 ≤ 9 ∧ 9 ≤ 17) :=
  ⟨(c6_output_fixed_set_ascending 0 [] (100 * msPerDay) (50 * msPerDay)).2.1,
   (c6_output_fixed_set_ascending 0 [] (100 * msPerDay) (50 * msPerDay)).2.2.1,
   (c6_output_fixed_set_ascending 0 [] (100 * msPerDay) (50 * msPerDay)).2.2.2,
   (c6_output_fixed_set_ascending 0 [] (100 * msPerDay) (50 * msPerDay)).1 9
     (by decide)⟩

/-- Claim C1 (counterexample): two booking attempts for the same date and
slot, serialised from a store state where the slot is free, BOTH commit —
`addDoc` is unconditional — leaving two distinct records that share
`(date, time)`; the claimed uniqueness invariant and the "exactly one
succeeds" behaviour fail. -/
theorem c1_counterexample :
    (handlePaymentAndBooking "client1" "Ana Silva" "11911111111"
        (100 * msPerDay) (some 14) true true 1 []).committed.isSome = true ∧
    (handlePaymentAndBooking "client2" "Bia Souza" "11922222222"
        (100 * msPerDay) (some 14) true true 2
        (handlePaymentAndBooking "client1" "Ana Silva" "11911111111"
          (100 * msPerDay) (some 14) true true 1 []).store).committed.isSome
      = true ∧
    (handlePaymentAndBooking "client2" "Bia Souza" "11922222222"
        (100 * msPerDay) (some 14) true true 2
        (handlePaymentAndBooking "client1" "Ana Silva" "11911111111"
          (100 * msPerDay) (some 14) true true 1 []).store).store.length = 2 ∧
    (handlePaymentAndBooking "client2" "Bia Souza" "11922222222"
        (100 * msPerDay) (some 14) true true 2
        (handlePaymentAndBooking "client1" "Ana Silva" "11911111111"
          (100 * msPerDay) (some 14) true true 1 []).store).store.Nodup ∧
    ∀ a ∈ (handlePaymentAndBooking "client2" "Bia Souza" "11922222222"
        (100 * msPerDay) (some 14) true true 2
        (handlePaymentAndBooking "client1" "Ana Silva" "11911111111"
          (100 * msPerDay) (some 14) true true 1 []).store).store,
      a.date = 100 ∧ a.time = 14 := by
  decide

/-- Claim C1 (amended): the commit path enforces no uniqueness.  For any
initial store, two successive booking commits for the same date and slot
both succeed and append two records sharing `(date, time)` — the slot
uniqueness invariant is maintained only best-effort by the pre-selection
availability display, never by the write. -/
theorem c1_amended_double_commit (store : List Appointment)
    (u1 u2 n1 n2 w1 w2 : String) (d : Int) (t : Nat) (c1 c2 : Int) :
    ∃ a1 a2 : Appointment,
      (handlePaymentAndBooking u1 n1 w1 d (some t) true true c1 store).committed
        = some a1 ∧
      (handlePaymentAndBooking u2 n2 w2 d (some t) true true c2
          (handlePaymentAndBooking u1 n1 w1 d (some t) true true c1
            store).store).committed = some a2 ∧
      a1.date = a2.date ∧ a1.time = a2.time ∧
      (handlePaymentAndBooking u2 n2 w2 d (some t) true true c2
          (handlePaymentAndBooking u1 n1 w1 d (some t) true true c1
            store).store).store = store ++ [a1, a2] := by
  refine ⟨_, _, rfl, rfl, rfl, rfl, ?_⟩
  simp [handlePaymentAndBooking]

/-- Claim C2 (counterexample): with the slot (day 100, 14:00) already
occupied by a committed record, a booking commit for that same slot does
NOT fail: it reports no error, hands a committed record to the caller and
writes a second record to the store. -/
theorem c2_counterexample :
    (handlePaymentAndBooking "client2" "Bia Souza" "11922222222"
        (100 * msPerDay) (some 14) true true 2 [appA]).errorMsg = "" ∧
    (handlePaymentAndBooking "client2" "Bia Souza" "11922222222"
        (100 * msPerDay) (some 14) true true 2 [appA]).committed.isSome
      = true ∧
    (handlePaymentAndBooking "client2" "Bia Souza" "11922222222"
        (100 * msPerDay) (some 14) true true 2 [appA]).store.length = 2 ∧
    appA.date = utcDay (100 * msPerDay) ∧ appA.time = 14 := by
  decide

/-- Claim C2 (amended): the commit path performs no slot-conflict
detection at all — whatever the store contains, a commit with a selected
slot and a successful payment gate succeeds with no error message and
appends exactly one record; the only failing commit outcome is a store
write failure, which surfaces the generic failure message, writes nothing,
and is not retried.  No "slot no longer available" state or message exists
in the code. -/
theorem c2_amended_no_conflict_detection (uid un wa : String) (d : Int)
    (t : Nat) (c : Int) (store : List Appointment) :
    (∃ a : Appointment,
      (handlePaymentAndBooking uid un wa d (some t) true true c store).committed
        = some a ∧
      (handlePaymentAndBooking uid un wa d (some t) true true c store).errorMsg
        = "" ∧
      (handlePaymentAndBooking uid un wa d (some t) true true c store).store
        = store ++ [a] ∧
      a.date = utcDay d ∧ a.time = t) ∧
    handlePaymentAndBooking uid un wa d (some t) true false c store =
      ⟨"Falha ao registrar o agendamento no sistema. Tente novamente.",
        none, store⟩ :=
  ⟨⟨_, rfl, rfl, rfl, rfl, rfl⟩, rfl⟩

/-- Claim C7: while a commit is in flight (`isBooking` true, confirm
button disabled), a re-entrant confirm click leaves the grid state — in
particular the store and the in-flight commit — completely unchanged, so
at most one commit is issued per attempt. -/
theorem c7_reentrant_confirm_ignored (uid un wa : String) (s : GridState)
    (paymentOk : Bool) (createdAt : Int) (h : s.isBooking = true) :
    gridStep uid un wa s (.confirmClick paymentOk createdAt) = s := by
  simp [gridStep, h]

/-- Witness for C7 at a concrete mid-commit grid state. -/
theorem c7_reentrant_confirm_ignored_witness :
    (GridState.mk (100 * msPerDay) (some 14) true "" (some appA) []).isBooking
      = true ∧
    gridStep "u" "Ana Silva" "11911111111"
        (GridState.mk (100 * msPerDay) (some 14) true "" (some appA) [])
        (.confirmClick true 7)
      = GridState.mk (100 * msPerDay) (some 14) true "" (some appA) [] :=
  ⟨rfl, c7_reentrant_confirm_ignored "u" "Ana Silva" "11911111111"
    (GridState.mk (100 * msPerDay) (some 14) true "" (some appA) []) true 7
    rfl⟩

/-- Claim C9: when the payment gate reports failure or cancellation, the
attempt ends with the user-visible "payment not completed" message
("Pagamento cancelado ou falhou. O agendamento não foi concluído."), no
record is committed, and the store is unchanged. -/
theorem c9_payment_gate_failure (uid un wa : String) (d : Int) (t : Nat)
    (storeOk : Bool) (c : Int) (store : List Appointment) :
    handlePaymentAndBooking uid un wa d (some t) false storeOk c store =
      ⟨"Pagamento cancelado ou falhou. O agendamento não foi concluído.",
        none, store⟩ :=
  rfl

/-- Claim C8 (counterexample): with two same-client records at the same
slot start instant, the later-created record `appA` precedes the
earlier-created record `appB` in the output exactly as in the cache — ties
are NOT broken by `createdAt` (the comparator consults only the start
instant, and JS sort stability preserves cache order). -/
theorem c8_counterexample :
    upcomingAppointments 0 "u" [appA, appB] 0 = [appA, appB] ∧
    dateTimeOf 0 appA = dateTimeOf 0 appB ∧
    appB.createdAt < appA.createdAt := by
  decide

/-- Claim C8 (amended): the upcoming-appointments derivation returns
exactly the cache records whose `userId` matches and whose slot start
instant is `≥ now` (excluding other clients and past-instant records),
sorted ascending by start instant; records with equal start instants keep
their cache order (stable sort) — `createdAt` is never consulted. -/
theorem c8_amended_upcoming (tz : Int) (uid : String)
    (appointments : List Appointment) (now : Int) :
    (∀ app, app ∈ upcomingAppointments tz uid appointments now ↔
      app ∈ appointments ∧ app.userId = uid ∧ dateTimeOf tz app ≥ now) ∧
    (upcomingAppointments tz uid appointments now).Sorted
      (fun a b => dateTimeOf tz a ≤ dateTimeOf tz b) ∧
    (upcomingAppointments tz uid appointments now).Perm
      ((appointments.filter (fun app => app.userId == uid)).filter
        (fun app => decide (dateTimeOf tz app ≥ now))) := by
  haveI : IsTotal Appointment (fun a b => dateTimeOf tz a ≤ dateTimeOf tz b) :=
    ⟨fun a b => Int.le_total _ _⟩
  haveI : IsTrans Appointment (fun a b => dateTimeOf tz a ≤ dateTimeOf tz b) :=
    ⟨fun _ _ _ hab hbc => Int.le_trans hab hbc⟩
  unfold upcomingAppointments
  refine ⟨?_, List.sorted_insertionSort _ _, List.perm_insertionSort _ _⟩
  intro app
  rw [List.mem_insertionSort]
  simp only [List.mem_filter, Bool.and_eq_true, beq_iff_eq,
    decide_eq_true_eq, ge_iff_le, and_assoc]

/-- Witness for the amended C8 theorem at a concrete cache. -/
theorem c8_amended_upcoming_witness :
    (appA ∈ upcomingAppointments 0 "u" [appA, appB] 0 ↔
      appA ∈ [appA, appB] ∧ appA.userId = "u" ∧ dateTimeOf 0 appA ≥ 0) ∧
    (upcomingAppointments 0 "u" [appA, appB] 0).Sorted
      (fun a b => dateTimeOf 0 a ≤ dateTimeOf 0 b) :=
  ⟨(c8_amended_upcoming 0 "u" [appA, appB] 0).1 appA,
   (c8_amended_upcoming 0 "u" [appA, appB] 0).2.1⟩

/-- Claim C10: (1) a committed record's `date` field is the UTC day
string of the selected `Date`; (2) away from the lead-time rule, a
record's slot is excluded from the availability of exactly those `Date`
values sharing its UTC day; (3) the same-day lead-time check instead
identifies today by LOCAL calendar day; (4) there are instants whose
local calendar day differs from their UTC calendar day, so the two rules
can act on different calendar days. -/
theorem c10_day_semantics :
    (∀ (uid un wa : String) (d : Int) (t : Nat) (c : Int)
        (store : List Appointment),
      (handlePaymentAndBooking uid un wa d (some t) true true c
          store).committed.map Appointment.date = some (utcDay d)) ∧
    (∀ (tz date now : Int) (r : Appointment),
      isToday tz now date = false → 9 ≤ r.time → r.time ≤ 17 →
      (r.time ∈ getAvailableSlots tz [r] date now ↔ utcDay date ≠ r.date)) ∧
    (∀ tz now date : Int,
      isToday tz now date = (localDay tz date == localDay tz now)) ∧
    (∃ tz now : Int, localDay tz now ≠ utcDay now) := by
  refine ⟨fun _ _ _ _ _ _ _ => rfl, ?_, fun _ _ _ => rfl,
    ⟨-3 * msPerHour, msPerHour, by decide⟩⟩
  intro tz date now r hT h9 h17
  rw [mem_getAvailableSlots]
  constructor
  · rintro ⟨-, hnb, -⟩ heq
    exact hnb ⟨r, List.mem_singleton_self r, heq.symm, rfl⟩
  · intro hne
    refine ⟨⟨h9, h17⟩, ?_, ?_⟩
    · rintro ⟨app, happ, hd, -⟩
      rw [List.mem_singleton] at happ
      subst happ
      exact hne hd.symm
    · intro hcontra
      rw [hT] at hcontra
      cases hcontra

/-- Witness for C10 at concrete inputs: a booking on UTC day 100 gets
`date = 100`; the sample record's slot is returned for a day-99 query
because day matching is by UTC day; and at offset UTC-3 the instant
01:00 UTC lies on local day -1 but UTC day 0. -/
theorem c10_day_semantics_witness :
    (handlePaymentAndBooking "u" "Ana Silva" "11911111111" (100 * msPerDay)
        (some 14) true true 5 []).committed.map Appointment.date
      = some (utcDay (100 * msPerDay)) ∧
    (appA.time ∈ getAvailableSlots 0 [appA] (99 * msPerDay) (100 * msPerDay) ↔
      utcDay (99 * msPerDay) ≠ appA.date) ∧
    localDay (-3 * msPerHour) msPerHour ≠ utcDay msPerHour :=
  ⟨c10_day_semantics.1 "u" "Ana Silva" "11911111111" (100 * msPerDay) 14 5 [],
   c10_day_semantics.2.1 0 (99 * msPerDay) (100 * msPerDay) appA (by decide)
     (by decide) (by decide),
   by decide⟩
